import Mathlib

/-!
Shallow embedding of the wagtail-graphql core: the model registry, the
registration driver (actions.py), and the query-root resolvers
(types/core.py).  Python dicts are modelled as association lists with
first-match lookup (cons-insert realises last-write-wins), Python sets as
duplicate-free lists, machine strings as Lean `String`, and the external
collaborators (data source, permission filter, form engine) as explicit
parameters.
-/

namespace WagtailGraphQL

/-- Lower-case every character of a string: models Python str.lower for the
ASCII class names this code handles. -/
def lowerStr (s : String) : String :=
  String.mk (s.data.map Char.toLower)

/-- Python str.capitalize on a word: first character upper-cased, the rest
lower-cased. -/
def capitalizeChars : List Char → List Char
  | [] => []
  | c :: t => c.toUpper :: t.map Char.toLower

/-- Split a character list on spaces, possibly producing empty chunks. -/
def splitSpacesAux : List Char → List Char → List (List Char)
  | [], acc => [acc.reverse]
  | c :: t, acc => if c == ' ' then acc.reverse :: splitSpacesAux t [] else splitSpacesAux t (c :: acc)

/-- Join words with single spaces. -/
def joinWords : List (List Char) → List Char
  | [] => []
  | [w] => w
  | w :: ws => w ++ ' ' :: joinWords ws

/-- Python string.capwords with the default separator: split on whitespace
dropping empty chunks, capitalize each word, re-join with single spaces. -/
def capwords (s : String) : String :=
  String.mk (joinWords (((splitSpacesAux s.data []).filter (fun w => w ≠ [])).map capitalizeChars))

/-- Django capfirst: upper-case the first character, leave the rest alone. -/
def capfirst (s : String) : String :=
  match s.data with
  | [] => ""
  | c :: t => String.mk (c.toUpper :: t)

/-- Replace every occurrence of a nonempty pattern in a character list,
scanning left to right; the fuel argument is the input length. -/
def replaceCharsAux (pat repl : List Char) : Nat → List Char → List Char
  | _, [] => []
  | 0, rest => rest
  | n + 1, c :: t =>
    if pat.isPrefixOf (c :: t) then
      repl ++ replaceCharsAux pat repl n (List.drop (pat.length - 1) t)
    else
      c :: replaceCharsAux pat repl n t

/-- String replacement used to model Python str.format placeholder
substitution; for an empty pattern the input is returned unchanged
(format templates never have empty placeholders). -/
def replaceStr (s pat repl : String) : String :=
  if pat = "" then s
  else String.mk (replaceCharsAux pat.data repl.data s.data.length s.data)

/-- Models actions.py: prefix.format(app=string.capwords(app), cls=cls.__name__). -/
def formatPfx (template appName clsName : String) : String :=
  replaceStr (replaceStr template "\x7bapp\x7d" (capwords appName)) "\x7bcls\x7d" clsName

/-- Python str.rstrip for the slash character: drop every trailing slash. -/
def rstripSlash (s : String) : String :=
  String.mk ((s.data.reverse.dropWhile (fun c => c == '/')).reverse)

/-- String prefix test on the underlying character lists. -/
def startsWithStr (s pre : String) : Bool :=
  pre.data.isPrefixOf s.data

/-- One step of wagtail camelcase_to_underscore: an upper-case letter gets an
underscore in front of it when it follows a lower-case letter or is followed
by a non-upper-case letter; every character is lower-cased. -/
def ccuChar (prev : Option Char) (c : Char) (next : Option Char) : List Char :=
  if c.isUpper &&
      ((match prev with | some p => p.isLower | none => false) ||
       (match next with | some n => !n.isUpper | none => false)) then
    ['_', c.toLower]
  else
    [c.toLower]

/-- Walk the character list carrying the previous character. -/
def ccuGo (prev : Option Char) : List Char → List Char
  | [] => []
  | c :: rest => ccuChar prev c rest.head? ++ ccuGo (some c) rest

/-- Models wagtail.core.utils.camelcase_to_underscore: insert underscores at
case boundaries, lower-case, strip leading underscores. -/
def camelcaseToUnderscore (s : String) : String :=
  String.mk ((ccuGo none s.data).dropWhile (fun c => c == '_'))

/-- A content-model class as seen by actions.py: an identity, its __name__,
the issubclass facts the classifier tests, its verbose name, and the names
of its StreamField fields. -/
structure ModelClass where
  uid : Nat
  name : String
  isAbstractForm : Bool
  isWagtailPage : Bool
  isBaseSetting : Bool
  verboseName : String
  streamFields : List String
deriving DecidableEq

/-- A schema type produced by one of the type builders: its generated name,
the interfaces attached through Meta, the extra dict-params keys merged in,
and whether it is the synthesized Mutation sibling. -/
structure SynthesizedType where
  name : String
  interfaces : List String
  paramKeys : List String
  isMutation : Bool
deriving DecidableEq

/-- The dict_params mapping threaded through _register_model: the Meta
interfaces tuple plus the extra keys added by the field synthesizer and the
kind-specific builders. -/
structure DictParams where
  metaInterfaces : List String
  extraKeys : List String
deriving DecidableEq

/-- Association-list insert modelling Python dict assignment: the new pair is
consed on and lookup takes the first match, so a later write shadows an
earlier one. -/
def dictInsert {κ ν : Type} (l : List (κ × ν)) (k : κ) (v : ν) : List (κ × ν) :=
  (k, v) :: l

/-- Association-list lookup, first match wins. -/
def dget {κ ν : Type} [DecidableEq κ] : List (κ × ν) → κ → Option ν
  | [], _ => none
  | (k', v) :: t, k => if k' = k then some v else dget t k

/-- Python set.add on a duplicate-free list. -/
def setAdd (l : List String) (s : String) : List String :=
  if s ∈ l then l else l ++ [s]

/-- The process-wide registry: the five buckets plus snippets_by_name and the
page_prefetch_fields set (wagtail_graphql/registry.py as described by the
spec and used by actions.py and types/core.py). -/
structure Registry where
  pages : List (ModelClass × SynthesizedType)
  forms : List (String × SynthesizedType)
  settings : List (String × ModelClass)
  snippets : List (ModelClass × SynthesizedType)
  snippets_by_name : List (String × SynthesizedType)
  django : List (String × SynthesizedType)
  page_prefetch_fields : List String

/-- The registry before any registration. -/
def emptyRegistry : Registry :=
  { pages := [], forms := [], settings := [], snippets := [],
    snippets_by_name := [], django := [], page_prefetch_fields := [] }

/-- A stored page record as the data source hands it back: id, stored
url_path, the materialized tree path and depth used for hierarchy queries,
visibility flags, and the most-specific model class its content-type
descriptor maps to. -/
structure PageRecord where
  id : Nat
  url_path : String
  path : String
  depth : Nat
  live : Bool
  show_in_menus : Bool
  cls : ModelClass
deriving DecidableEq

/-- One top-level selection of the incoming GraphQL query as seen by
resolve_pages: its field name and whether it is an inline fragment. -/
structure SelectionAst where
  name : String
  isInline : Bool
deriving DecidableEq

/-- Wagtail PageQuerySet.child_of: the candidate's materialized path extends
the parent's and its depth is exactly one greater. -/
def childOf (parent q : PageRecord) : Bool :=
  startsWithStr q.path parent.path && q.depth == parent.depth + 1

/-- Wagtail PageQuerySet.descendant_of (exclusive): the candidate's
materialized path extends the parent's and it sits strictly deeper. -/
def descendantOf (parent q : PageRecord) : Bool :=
  startsWithStr q.path parent.path && decide (parent.depth < q.depth)

/-- Lexicographic order on character lists, used to model SQL ordering on the
path column. -/
def charListLe : List Char → List Char → Bool
  | [], _ => true
  | _ :: _, [] => false
  | a :: as, b :: bs => if a = b then charListLe as bs else decide (a < b)

/-- Comparison of two records by their path column. -/
def pathLe (a b : PageRecord) : Bool :=
  charListLe a.path.data b.path.data

/-- Insertion step of the path-ordered sort. -/
def insertByPath (p : PageRecord) : List PageRecord → List PageRecord
  | [] => [p]
  | q :: t => if pathLe p q then p :: q :: t else q :: insertByPath p t

/-- Models order_by applied on the path column: insertion sort by pathLe. -/
def sortByPath : List PageRecord → List PageRecord
  | [] => []
  | p :: t => insertByPath p (sortByPath t)

/-- Models actions.py _add_form: record the lower-cased class name for
prefetching, attach PageInterface, add the form_fields field and resolver,
register the node type into pages keyed by the class, then build the sibling
Mutation type and register it into forms keyed by the node name.  The
mutation body itself is modelled by the mutate function below; its
dict_params keys are recorded on the synthesized type.  Returns the
registry and the mutation type, as the source returns tp. -/
def _add_form (cls : ModelClass) (node : String) (dict_params : DictParams)
    (_urlPfx : String) (r : Registry) : Registry × SynthesizedType :=
  let r1 := { r with page_prefetch_fields := setAdd r.page_prefetch_fields (lowerStr cls.name) }
  let dp1 := { dict_params with
                metaInterfaces := ["PageInterface"],
                extraKeys := dict_params.extraKeys ++ ["form_fields", "resolve_form_fields"] }
  let tp : SynthesizedType :=
    { name := node, interfaces := dp1.metaInterfaces, paramKeys := dp1.extraKeys,
      isMutation := false }
  let r2 := { r1 with pages := dictInsert r1.pages cls tp }
  let mtp : SynthesizedType :=
    { name := node ++ "Mutation", interfaces := [],
      paramKeys := ["Arguments", "mutate", "result", "errors"], isMutation := true }
  ({ r2 with forms := dictInsert r2.forms node mtp }, mtp)

/-- Models actions.py _add_page: record the lower-cased class name for
prefetching, attach PageInterface, build the type, register it into pages
keyed by the class. -/
def _add_page (cls : ModelClass) (node : String) (dict_params : DictParams)
    (r : Registry) : Registry × SynthesizedType :=
  let r1 := { r with page_prefetch_fields := setAdd r.page_prefetch_fields (lowerStr cls.name) }
  let dp1 := { dict_params with metaInterfaces := ["PageInterface"] }
  let tp : SynthesizedType :=
    { name := node, interfaces := dp1.metaInterfaces, paramKeys := dp1.extraKeys,
      isMutation := false }
  ({ r1 with pages := dictInsert r1.pages cls tp }, tp)

/-- Models actions.py _add_setting: attach the Settings interface, build the
type, and register the class itself into settings keyed by the cap-firsted
verbose name (the built type is returned but not stored). -/
def _add_setting (cls : ModelClass) (node : String) (dict_params : DictParams)
    (r : Registry) : Registry × SynthesizedType :=
  let dp1 := { dict_params with metaInterfaces := ["Settings"] }
  let tp : SynthesizedType :=
    { name := node, interfaces := dp1.metaInterfaces, paramKeys := dp1.extraKeys,
      isMutation := false }
  ({ r with settings := dictInsert r.settings (capfirst cls.verboseName) cls }, tp)

/-- Models actions.py _add_snippet: build the type with no shared interface
and register it under both the class and the node name. -/
def _add_snippet (cls : ModelClass) (node : String) (dict_params : DictParams)
    (r : Registry) : Registry × SynthesizedType :=
  let tp : SynthesizedType :=
    { name := node, interfaces := dict_params.metaInterfaces,
      paramKeys := dict_params.extraKeys, isMutation := false }
  ({ r with snippets := dictInsert r.snippets cls tp,
            snippets_by_name := dictInsert r.snippets_by_name node tp }, tp)

/-- Models actions.py _add_django_model: build the type with no shared
interface and register it into the generic-records bucket by node name. -/
def _add_django_model (_cls : ModelClass) (node : String) (dict_params : DictParams)
    (r : Registry) : Registry × SynthesizedType :=
  let tp : SynthesizedType :=
    { name := node, interfaces := dict_params.metaInterfaces,
      paramKeys := dict_params.extraKeys, isMutation := false }
  ({ r with django := dictInsert r.django node tp }, tp)

/-- Models actions.py _add_streamfields: for every StreamField on the class
add the field entry and its resolver entry to dict_params.  The per-block
handlers built there do not affect any registry bucket and are abstracted to
the two dict keys. -/
def _add_streamfields (cls : ModelClass) (dict_params : DictParams) : DictParams :=
  cls.streamFields.foldl
    (fun d fname => { d with extraKeys := d.extraKeys ++ [fname, "resolve_" ++ fname] })
    dict_params

/-- The node name _register_model computes for a class: the formatted prefix
template concatenated with the class name. -/
def nodeNameOf (pfxTemplate app : String) (cls : ModelClass) : String :=
  formatPfx pfxTemplate app cls.name ++ cls.name

/-- Models actions.py _register_model: skip when the class was already seen
in this driver run, otherwise compute the node name, synthesize streamfield
entries, dispatch on snippet / AbstractForm / wagtailPage / BaseSetting /
plain model in that order, and mark the class seen. -/
def _register_model (registered : List ModelClass) (cls : ModelClass) (snippet : Bool)
    (app pfxTemplate urlPfx : String) (r : Registry) : List ModelClass × Registry :=
  if cls ∈ registered then (registered, r)
  else
    let node := nodeNameOf pfxTemplate app cls
    let dict_params : DictParams := { metaInterfaces := [], extraKeys := [] }
    let dict_params := _add_streamfields cls dict_params
    let r' :=
      if snippet then (_add_snippet cls node dict_params r).1
      else if cls.isAbstractForm then (_add_form cls node dict_params urlPfx r).1
      else if cls.isWagtailPage then (_add_page cls node dict_params r).1
      else if cls.isBaseSetting then (_add_setting cls node dict_params r).1
      else (_add_django_model cls node dict_params r).1
    (cls :: registered, r')

/-- The for-loop of add_app: fold _register_model over the to_register list,
threading the seen set and the registry; the snippet flag of each class is
its membership in the snippet list. -/
def registerLoop (app pfxTemplate urlPfx : String) (snippets : List ModelClass) :
    List ModelClass → List ModelClass × Registry → List ModelClass × Registry
  | [], st => st
  | c :: t, st =>
    registerLoop app pfxTemplate urlPfx snippets t
      (_register_model st.1 c (decide (c ∈ snippets)) app pfxTemplate urlPfx st.2)

/-- Models actions.py add_app: combine the snippet models with the content
source's models (dropping null content types), start from an empty seen set,
and register each class in order.  The Python defaults are
pfxTemplate = "\x7bapp\x7d" and urlPfx = "". -/
def add_app (app pfxTemplate urlPfx : String) (snippets : List ModelClass)
    (models : List (Option ModelClass)) (r : Registry) : Registry :=
  let to_register := ((snippets.map some) ++ models).filterMap id
  (registerLoop app pfxTemplate urlPfx snippets to_register ([], r)).2

/-- Input to PageInterface.resolve_type: either a bare integer id or a loaded
interface instance. -/
inductive ResolveTarget where
  | byId : Nat → ResolveTarget
  | byInstance : PageRecord → ResolveTarget

/-- Models types/core.py PageInterface.resolve_type: for a bare id, load the
record, take its most-specific class and look it up in pages (a missing
record or a missing registration is the KeyError failure, modelled none);
for an instance, look up the class its content-type descriptor maps to. -/
def resolve_type (r : Registry) (db : List PageRecord) : ResolveTarget → Option SynthesizedType
  | .byId n =>
    match (db.filter (fun p => p.id == n)).head? with
    | some sp => dget r.pages sp.cls
    | none => none
  | .byInstance inst => dget r.pages inst.cls

/-- The lookup path resolve_page and mutate build from a url argument:
URL_PREFIX + url.rstrip slash + one trailing slash. -/
def buildPageUrlPath (urlPfx url : String) : String :=
  urlPfx ++ rstripSlash url ++ "/"

/-- Models types/core.py PagesQueryMixin.resolve_page: filter by id when id
is given, else by the built url path when url is given, else raise; then the
permission filter, the live filter, and first().  A missing page is the ok
none absent result.  The source message reads One of 'id' or 'url' must be
specified; the quotes are dropped here. -/
def resolve_page (urlPfx : String) (db : List PageRecord) (perm : PageRecord → Bool)
    (id : Option Nat) (url : Option String) : Except String (Option PageRecord) :=
  match id with
  | some i => .ok ((((db.filter (fun p => p.id == i)).filter perm).filter (fun p => p.live)).head?)
  | none =>
    match url with
    | some u =>
      .ok ((((db.filter (fun p => p.url_path == buildPageUrlPath urlPfx u)).filter perm).filter (fun p => p.live)).head?)
    | none => .error "One of id or url must be specified"

/-- The selection-name set resolve_pages computes: drop inline fragments,
convert each selected field name with camelcase_to_underscore. -/
def selectionNames (sels : List SelectionAst) : List String :=
  (sels.filter (fun f => !f.isInline)).map (fun f => camelcaseToUnderscore f.name)

/-- The select_related joins resolve_pages applies: the members of the
prefetch set that occur among the converted selection names. -/
def prefetchJoins (prefetch : List String) (sels : List SelectionAst) : List String :=
  prefetch.filter (fun pf => (selectionNames sels).contains pf)

/-- Models types/core.py PagesQueryMixin.resolve_pages: compute the
selective-prefetch joins, and when parent is given look the parent up by id,
raising when it does not resolve, and restrict with child_of; then the
permission filter, the live filter, and ordering by path.  The applied joins
are returned alongside the records. -/
def resolve_pages (db : List PageRecord) (perm : PageRecord → Bool)
    (prefetch : List String) (sels : List SelectionAst)
    (parent : Option Nat) : Except String (List String × List PageRecord) :=
  let joins := prefetchJoins prefetch sels
  match parent with
  | some pid =>
    match (db.filter (fun p => p.id == pid)).head? with
    | none => .error ("Page id=" ++ toString pid ++ " not found.")
    | some parent_page =>
      .ok (joins,
           sortByPath (((db.filter (fun p => childOf parent_page p)).filter perm).filter (fun p => p.live)))
  | none => .ok (joins, sortByPath ((db.filter perm).filter (fun p => p.live)))

/-- The validation outcome the external form engine reports for one bound
submission: whether it is valid, and the (field name, messages) pairs of
form.errors.items() in their reported order. -/
structure FormValidation where
  is_valid : Bool
  errors : List (String × List String)

/-- The payload the synthesized mutation returns: the result string and the
errors list; the source leaves errors unset on the OK branch, modelled
none. -/
structure MutationPayload where
  result : String
  errors : Option (List (String × List String))
deriving DecidableEq

/-- Models the mutate closure in actions.py _add_form: resolve the url
through the permission filter to a live page, bind the form (the external
form engine is the getForm parameter), and on a valid form invoke
process_form_submission and return OK, otherwise return FAIL with the
per-field errors in reported order.  The Bool of the pair records whether
the submission handler was invoked; an unresolvable url (a crash on None in
the source) is modelled none. -/
def mutate (urlPfx : String) (db : List PageRecord) (perm : PageRecord → Bool)
    (getForm : PageRecord → FormValidation) (url : String) :
    Option (Bool × MutationPayload) :=
  match (((db.filter (fun p => p.url_path == buildPageUrlPath urlPfx url)).filter perm).filter (fun p => p.live)).head? with
  | none => none
  | some inst =>
    let form := getForm inst
    if form.is_valid then
      some (true, { result := "OK", errors := none })
    else
      some (false, { result := "FAIL", errors := some form.errors })

/-- Models the graphene-django DjangoObjectType Meta contract used in
types/core.py: the synthesized type exposes the model fields minus the
excluded ones. -/
def djangoObjectTypeFields (modelFields excludeFields : List String) : List String :=
  modelFields.filter (fun f => !excludeFields.contains f)

/-- Models types/core.py class User: DjangoObjectType over the user model
with exclude_fields password. -/
def userTypeFields (modelFields : List String) : List String :=
  djangoObjectTypeFields modelFields ["password"]

/-- How many of the five spec buckets a class appears in, with node the name
it would be keyed under in the name-keyed buckets: pages and snippets by
class, forms and generic records by node name, settings as a stored value. -/
def inBucketsCount (r : Registry) (cls : ModelClass) (node : String) : Nat :=
  (dget r.pages cls).isSome.toNat +
  (dget r.forms node).isSome.toNat +
  (r.settings.any (fun kv => kv.2 == cls)).toNat +
  (dget r.snippets cls).isSome.toNat +
  (dget r.django node).isSome.toNat

/-- The classification _register_model performs, as an index: 0 snippet,
1 form, 2 page, 3 setting, 4 generic record, in precedence order. -/
def classifiedKind (snippet : Bool) (cls : ModelClass) : Nat :=
  if snippet then 0
  else if cls.isAbstractForm then 1
  else if cls.isWagtailPage then 2
  else if cls.isBaseSetting then 3
  else 4

/-- Membership of a class in the bucket its classification selects; a form
class is expected in both pages and forms. -/
def inExpectedBucket (r : Registry) (cls : ModelClass) (node : String) (k : Nat) : Bool :=
  if k = 0 then (dget r.snippets cls).isSome
  else if k = 1 then (dget r.pages cls).isSome && (dget r.forms node).isSome
  else if k = 2 then (dget r.pages cls).isSome
  else if k = 3 then r.settings.any (fun kv => kv.2 == cls)
  else (dget r.django node).isSome

/-- A plain page class used as concrete input. -/
def aboutCls : ModelClass :=
  { uid := 10, name := "AboutPage", isAbstractForm := false, isWagtailPage := true,
    isBaseSetting := false, verboseName := "about page", streamFields := [] }

/-- A form class used as concrete input; wagtail AbstractForm classes are
also Page subclasses. -/
def contactFormCls : ModelClass :=
  { uid := 11, name := "FormPage", isAbstractForm := true, isWagtailPage := true,
    isBaseSetting := false, verboseName := "form page", streamFields := [] }

/-- A live record stored at url_path about slash under an empty URL_PREFIX. -/
def aboutRecord : PageRecord :=
  { id := 1, url_path := "about/", path := "00010002", depth := 2, live := true,
    show_in_menus := false, cls := aboutCls }

/-- A root-level record acting as the parent in the hierarchy examples. -/
def parentRec : PageRecord :=
  { id := 1, url_path := "home/", path := "0001", depth := 1, live := true,
    show_in_menus := false, cls := aboutCls }

/-- A direct child of parentRec. -/
def childRec : PageRecord :=
  { id := 2, url_path := "home/a/", path := "00010001", depth := 2, live := true,
    show_in_menus := false, cls := aboutCls }

/-- A grandchild of parentRec: a live descendant that is not a direct
child. -/
def grandRec : PageRecord :=
  { id := 3, url_path := "home/a/b/", path := "000100010001", depth := 3, live := true,
    show_in_menus := false, cls := aboutCls }

/-- The three-level store used by the hierarchy examples. -/
def hierarchyDb : List PageRecord :=
  [parentRec, childRec, grandRec]

/-- A live form page stored at url_path contact slash. -/
def contactRec : PageRecord :=
  { id := 4, url_path := "contact/", path := "00010003", depth := 2, live := true,
    show_in_menus := false, cls := contactFormCls }

/-- A selection set naming the lower-cased class field formpage and a scalar
field. -/
def selFormpage : List SelectionAst :=
  [{ name := "formpage", isInline := false }, { name := "title", isInline := false }]

/-- The node name the driver computes for the form class under the default
prefix template and source home. -/
def formNodeName : String := nodeNameOf "\x7bapp\x7d" "home" contactFormCls

/-- The registry after the driver registers the form class into an empty
registry. -/
def formRegistryAfter : Registry :=
  (_register_model [] contactFormCls false "home" "\x7bapp\x7d" "" emptyRegistry).2

theorem dget_dictInsert_self {κ ν : Type} [DecidableEq κ] (l : List (κ × ν)) (k : κ) (v : ν) :
    dget (dictInsert l k v) k = some v := by
  simp [dictInsert, dget]

theorem rstripSlash_append_slash (u : String) : rstripSlash (u ++ "/") = rstripSlash u := by
  show String.mk (((u.data ++ ['/']).reverse.dropWhile (fun c => c == '/')).reverse) = _
  simp [rstripSlash, List.dropWhile]

theorem mem_insertByPath (x p : PageRecord) (l : List PageRecord) :
    x ∈ insertByPath p l ↔ x = p ∨ x ∈ l := by
  induction l with
  | nil => simp [insertByPath]
  | cons q t ih =>
    by_cases h : pathLe p q = true
    · simp [insertByPath, h]
    · simp only [insertByPath, if_neg h, List.mem_cons, ih]
      tauto

theorem mem_sortByPath (x : PageRecord) (l : List PageRecord) :
    x ∈ sortByPath l ↔ x ∈ l := by
  induction l with
  | nil => simp [sortByPath]
  | cons p t ih => simp [sortByPath, mem_insertByPath, ih]

theorem childOf_imp_descendantOf (a b : PageRecord) (h : childOf a b = true) :
    descendantOf a b = true := by
  simp only [childOf, Bool.and_eq_true, beq_iff_eq] at h
  simp only [descendantOf, Bool.and_eq_true, decide_eq_true_eq]
  exact ⟨h.1, by omega⟩

theorem filter_count_of_nodup (l : List String) (p : String → Bool) (a : String)
    (hnd : l.Nodup) (ha : a ∈ l) (hp : p a = true) : (l.filter p).count a = 1 := by
  induction l with
  | nil => cases ha
  | cons b t ih =>
    rcases List.mem_cons.mp ha with rfl | hat
    · have hbt : a ∉ t := (List.nodup_cons.mp hnd).1
      have : (t.filter p).count a = 0 := by
        refine List.count_eq_zero.mpr ?_
        intro hmem
        exact hbt (List.mem_of_mem_filter hmem)
      simp [List.filter, hp, List.count_cons, this]
    · have hba : b ≠ a := by
        intro h
        exact (List.nodup_cons.mp hnd).1 (h ▸ hat)
      have := ih (List.nodup_cons.mp hnd).2 hat
      cases hpb : p b <;> simp [List.filter, hpb, List.count_cons, this, hba]

/-- C10: the synthesized User schema type never exposes the password field:
its field set is the model's fields with password removed and nothing
else. -/
theorem C10_user_excludes_password (modelFields : List String) :
    "password" ∉ userTypeFields modelFields ∧
    (∀ f, f ∈ modelFields → f ≠ "password" → f ∈ userTypeFields modelFields) ∧
    (∀ f, f ∈ userTypeFields modelFields → f ∈ modelFields) := by
  refine ⟨?_, ?_, ?_⟩
  · simp [userTypeFields, djangoObjectTypeFields, List.mem_filter]
  · intro f hf hne
    simp [userTypeFields, djangoObjectTypeFields, List.mem_filter, hf, hne]
  · intro f hf
    exact List.mem_of_mem_filter hf

theorem C10_user_excludes_password_witness :
    "password" ∉ userTypeFields ["id", "username", "password", "email"] ∧
    "email" ∈ userTypeFields ["id", "username", "password", "email"] :=
  ⟨(C10_user_excludes_password ["id", "username", "password", "email"]).1,
   (C10_user_excludes_password ["id", "username", "password", "email"]).2.1 "email"
     (by decide) (by decide)⟩

/-- C3 counterexample: a call supplying both id and url does not fail: the id
branch is taken and the url is ignored, so the claim that every such call
fails with an invalid-argument condition is false. -/
theorem C3_both_arguments_counterexample :
    resolve_page "" [aboutRecord] (fun _ => true) (some 1) (some "contact")
      = Except.ok (some aboutRecord) := rfl

/-- C3 amended: at least one of id and url must be given: a call with
neither fails with the invalid-argument condition, and a call with both
behaves exactly as the call with only id (id takes precedence, url is
ignored, no failure). -/
theorem C3_amended_argument_contract (urlPfx : String) (db : List PageRecord)
    (perm : PageRecord → Bool) :
    resolve_page urlPfx db perm none none = Except.error "One of id or url must be specified" ∧
    ∀ (i : Nat) (u : String),
      resolve_page urlPfx db perm (some i) (some u) = resolve_page urlPfx db perm (some i) none :=
  ⟨rfl, fun _ _ => rfl⟩

/-- C4 counterexample: with the stored path about-slash under an empty URL
prefix, the calls with url about and url slash-about-slash build different
lookup paths, and only the former resolves to the record: the leading slash
is not normalized away. -/
theorem C4_leading_slash_counterexample :
    buildPageUrlPath "" "/about/" ≠ buildPageUrlPath "" "about" ∧
    resolve_page "" [aboutRecord] (fun _ => true) none (some "about")
      = Except.ok (some aboutRecord) ∧
    resolve_page "" [aboutRecord] (fun _ => true) none (some "/about/") = Except.ok none :=
  ⟨by decide, rfl, rfl⟩

/-- C4 amended: only trailing slashes are normalized away by the url-to-path
join: appending a trailing slash to a url argument never changes the built
lookup path or the resolved record, so url about-slash and url about
coincide, while a leading slash is kept verbatim. -/
theorem C4_amended_trailing_slash_normalization (urlPfx u : String) (db : List PageRecord)
    (perm : PageRecord → Bool) :
    buildPageUrlPath urlPfx (u ++ "/") = buildPageUrlPath urlPfx u ∧
    resolve_page urlPfx db perm none (some (u ++ "/")) = resolve_page urlPfx db perm none (some u) := by
  have h := rstripSlash_append_slash u
  exact ⟨by simp [buildPageUrlPath, h], by simp [resolve_page, buildPageUrlPath, h]⟩

/-- C6: an unresolvable parent id makes resolve_pages fail with the explicit
not-found condition, while resolve_page with an id matching no record
returns the absent result ok-none rather than an error. -/
theorem C6_parent_not_found_vs_absent_page (urlPfx : String) (db : List PageRecord)
    (perm : PageRecord → Bool) (prefetch : List String) (sels : List SelectionAst) (n : Nat)
    (h : (db.filter (fun p => p.id == n)).head? = none) :
    resolve_pages db perm prefetch sels (some n)
      = Except.error ("Page id=" ++ toString n ++ " not found.") ∧
    resolve_page urlPfx db perm (some n) none = Except.ok none := by
  have hnil : db.filter (fun p => p.id == n) = [] := by
    cases hF : db.filter (fun p => p.id == n) with
    | nil => rfl
    | cons a t => rw [hF] at h; simp at h
  exact ⟨by simp [resolve_pages, h], by simp [resolve_page, hnil]⟩

theorem C6_parent_not_found_vs_absent_page_witness :
    resolve_pages [] (fun _ => true) [] [] (some 5)
      = Except.error ("Page id=" ++ toString 5 ++ " not found.") ∧
    resolve_page "" [] (fun _ => true) (some 5) none = Except.ok none :=
  C6_parent_not_found_vs_absent_page "" [] (fun _ => true) [] [] 5 rfl

/-- C7: when the bound form validates, the submission handler is invoked and
the mutation returns OK with no errors reported; when validation fails, the
handler is not invoked and the mutation returns FAIL with the per-field
error pairs in the validation errors' reported order. -/
theorem C7_form_mutation_outcomes (urlPfx : String) (db : List PageRecord)
    (perm : PageRecord → Bool) (getForm : PageRecord → FormValidation) (url : String)
    (inst : PageRecord)
    (hinst : (((db.filter (fun p => p.url_path == buildPageUrlPath urlPfx url)).filter perm).filter
      (fun p => p.live)).head? = some inst) :
    ((getForm inst).is_valid = true →
      mutate urlPfx db perm getForm url = some (true, { result := "OK", errors := none })) ∧
    ((getForm inst).is_valid = false →
      mutate urlPfx db perm getForm url
        = some (false, { result := "FAIL", errors := some (getForm inst).errors })) := by
  constructor <;> intro hv <;> (unfold mutate; rw [hinst]; simp [hv])

theorem C7_form_mutation_outcomes_witness :
    mutate "" [contactRec] (fun _ => true)
      (fun _ => { is_valid := false, errors := [("email", ["Invalid"])] }) "contact"
      = some (false, { result := "FAIL", errors := some [("email", ["Invalid"])] }) :=
  (C7_form_mutation_outcomes "" [contactRec] (fun _ => true)
    (fun _ => { is_valid := false, errors := [("email", ["Invalid"])] }) "contact"
    contactRec rfl).2 rfl

theorem contains_eq_true_iff (l : List String) (a : String) :
    l.contains a = true ↔ a ∈ l := by
  induction l with
  | nil => simp
  | cons b t ih => simp [List.contains_cons, ih]

/-- C1: registering a page-interface class (a page or a form, the two kinds
the pages bucket receives) and then resolving an instance whose recorded
content-type descriptor maps to that class returns exactly the synthesized
type the registration stored. -/
theorem C1_page_registration_roundtrip (s : List ModelClass) (cls : ModelClass)
    (app pfxTemplate urlPfx : String) (r : Registry) (db : List PageRecord)
    (inst : PageRecord)
    (hns : cls ∉ s)
    (hkind : cls.isAbstractForm = true ∨ (cls.isAbstractForm = false ∧ cls.isWagtailPage = true))
    (hinst : inst.cls = cls) :
    ∃ T, dget ((_register_model s cls false app pfxTemplate urlPfx r).2).pages cls = some T ∧
      resolve_type ((_register_model s cls false app pfxTemplate urlPfx r).2) db
        (ResolveTarget.byInstance inst) = some T := by
  have hres : resolve_type ((_register_model s cls false app pfxTemplate urlPfx r).2) db
      (ResolveTarget.byInstance inst)
      = dget ((_register_model s cls false app pfxTemplate urlPfx r).2).pages cls := by
    simp [resolve_type, hinst]
  have hsome : (dget ((_register_model s cls false app pfxTemplate urlPfx r).2).pages cls).isSome
      = true := by
    rcases hkind with hf | ⟨hf, hp⟩
    · simp [_register_model, hns, hf, _add_form, dget_dictInsert_self]
    · simp [_register_model, hns, hf, hp, _add_page, dget_dictInsert_self]
  rcases Option.isSome_iff_exists.mp hsome with ⟨T, hT⟩
  exact ⟨T, hT, by rw [hres, hT]⟩

theorem C1_page_registration_roundtrip_witness :
    ∃ T, dget ((_register_model [] aboutCls false "home" "\x7bapp\x7d" "" emptyRegistry).2).pages
        aboutCls = some T ∧
      resolve_type ((_register_model [] aboutCls false "home" "\x7bapp\x7d" "" emptyRegistry).2) []
        (ResolveTarget.byInstance aboutRecord) = some T :=
  C1_page_registration_roundtrip [] aboutCls "home" "\x7bapp\x7d" "" emptyRegistry []
    aboutRecord (by simp) (Or.inr ⟨rfl, rfl⟩) rfl

/-- C5 counterexample: with a live, permitted grandchild in the store,
pages with parent set to the root returns only the direct child: the
grandchild is a live, permitted descendant of the parent yet is not
returned, so restriction to descendants is false. -/
theorem C5_descendants_counterexample :
    descendantOf parentRec grandRec = true ∧ grandRec.live = true ∧
    resolve_pages hierarchyDb (fun _ => true) [] [] (some 1)
      = Except.ok ([], [childRec]) ∧
    grandRec ∉ [childRec] :=
  ⟨by decide, rfl, rfl, by decide⟩

/-- C5 amended: pages with a resolvable parent restricts to the immediate
children of that page: a record is returned exactly when it is stored, is a
child of the parent, passes the permission filter and is live; every child
is in particular a descendant, but deeper descendants are not selected. -/
theorem C5_amended_children_of_parent (db : List PageRecord) (perm : PageRecord → Bool)
    (prefetch : List String) (sels : List SelectionAst) (pid : Nat) (pp : PageRecord)
    (hpp : (db.filter (fun p => p.id == pid)).head? = some pp) :
    ∃ out, resolve_pages db perm prefetch sels (some pid)
        = Except.ok (prefetchJoins prefetch sels, out) ∧
      (∀ q, q ∈ out ↔ (q ∈ db ∧ childOf pp q = true ∧ perm q = true ∧ q.live = true)) ∧
      (∀ q, childOf pp q = true → descendantOf pp q = true) := by
  refine ⟨sortByPath (((db.filter (fun p => childOf pp p)).filter perm).filter (fun p => p.live)),
    ?_, ?_, fun q h => childOf_imp_descendantOf pp q h⟩
  · simp only [resolve_pages]
    rw [hpp]
  · intro q
    simp only [mem_sortByPath, List.mem_filter]
    tauto

theorem C5_amended_children_of_parent_witness :
    ∃ out, resolve_pages hierarchyDb (fun _ => true) [] [] (some 1)
        = Except.ok (prefetchJoins [] [], out) ∧
      (∀ q, q ∈ out ↔ (q ∈ hierarchyDb ∧ childOf parentRec q = true ∧ (fun _ => true) q = true ∧
        q.live = true)) ∧
      (∀ q, childOf parentRec q = true → descendantOf parentRec q = true) :=
  C5_amended_children_of_parent hierarchyDb (fun _ => true) [] [] 1 parentRec rfl

/-- C9: the eager-load joins resolve_pages applies are exactly the prefetch
names occurring among the converted selection names: selecting only fields
outside the prefetch set yields no joins, and a selected name in the
prefetch set yields exactly one corresponding join. -/
theorem C9_selective_prefetch (db : List PageRecord) (perm : PageRecord → Bool)
    (prefetch : List String) (sels : List SelectionAst)
    (hnd : prefetch.Nodup) :
    (∃ out, resolve_pages db perm prefetch sels none
        = Except.ok (prefetchJoins prefetch sels, out)) ∧
    ((∀ pf, pf ∈ prefetch → pf ∉ selectionNames sels) → prefetchJoins prefetch sels = []) ∧
    (∀ pf, pf ∈ prefetch → pf ∈ selectionNames sels →
      (prefetchJoins prefetch sels).count pf = 1) := by
  refine ⟨⟨_, rfl⟩, ?_, ?_⟩
  · intro h
    unfold prefetchJoins
    refine List.filter_eq_nil_iff.mpr ?_
    intro a ha
    simp only [Bool.not_eq_true]
    cases hc : (selectionNames sels).contains a with
    | false => rfl
    | true => exact absurd ((contains_eq_true_iff _ _).mp hc) (h a ha)
  · intro pf hpf hsel
    exact filter_count_of_nodup prefetch _ pf hnd hpf ((contains_eq_true_iff _ _).mpr hsel)

theorem C9_selective_prefetch_witness :
    (prefetchJoins ["formpage"] selFormpage).count "formpage" = 1 :=
  (C9_selective_prefetch [] (fun _ => true) ["formpage"] selFormpage (by decide)).2.2
    "formpage" (by decide) (by decide)

theorem toNat_eq_zero_imp {b : Bool} (h : b.toNat = 0) : b = false := by
  cases b <;> simp_all

theorem inBucketsCount_zero_parts (r : Registry) (cls : ModelClass) (node : String)
    (h : inBucketsCount r cls node = 0) :
    (dget r.pages cls).isSome = false ∧ (dget r.forms node).isSome = false ∧
    (r.settings.any (fun kv => kv.2 == cls)) = false ∧
    (dget r.snippets cls).isSome = false ∧ (dget r.django node).isSome = false := by
  unfold inBucketsCount at h
  refine ⟨toNat_eq_zero_imp ?_, toNat_eq_zero_imp ?_, toNat_eq_zero_imp ?_,
    toNat_eq_zero_imp ?_, toNat_eq_zero_imp ?_⟩ <;> omega

/-- C2 counterexample: registering a form class into an empty registry makes
it appear in both the pages bucket (keyed by the class) and the forms bucket
(keyed by its node name), so it does not appear in exactly one bucket. -/
theorem C2_disjointness_counterexample :
    (dget formRegistryAfter.pages contactFormCls).isSome = true ∧
    (dget formRegistryAfter.forms formNodeName).isSome = true ∧
    inBucketsCount formRegistryAfter contactFormCls formNodeName = 2 ∧
    inBucketsCount formRegistryAfter contactFormCls formNodeName ≠ 1 := by
  decide

/-- C2 amended: a class the driver has not seen before and that is fresh for
the registry is dispatched by the precedence snippet, form, page, setting,
generic record, and after registration appears in exactly the bucket its
classification selects: one bucket in every case except a non-snippet form
class, which appears in two, pages keyed by the class and forms keyed by its
node name. -/
theorem C2_amended_bucket_placement (s : List ModelClass) (cls : ModelClass) (snippet : Bool)
    (app pfxTemplate urlPfx : String) (r : Registry)
    (hns : cls ∉ s)
    (hfresh : inBucketsCount r cls (nodeNameOf pfxTemplate app cls) = 0) :
    inBucketsCount ((_register_model s cls snippet app pfxTemplate urlPfx r).2) cls
        (nodeNameOf pfxTemplate app cls)
      = (if snippet = false ∧ cls.isAbstractForm = true then 2 else 1) ∧
    inExpectedBucket ((_register_model s cls snippet app pfxTemplate urlPfx r).2) cls
        (nodeNameOf pfxTemplate app cls) (classifiedKind snippet cls) = true := by
  obtain ⟨h1, h2, h3, h4, h5⟩ := inBucketsCount_zero_parts r cls _ hfresh
  cases snippet with
  | true =>
    simp [_register_model, hns, _add_snippet, inBucketsCount, inExpectedBucket,
      classifiedKind, dictInsert, dget, h1, h2, h3, h5]
  | false =>
    cases hf : cls.isAbstractForm with
    | true =>
      simp [_register_model, hns, hf, _add_form, inBucketsCount, inExpectedBucket,
        classifiedKind, dictInsert, dget, h3, h4, h5]
    | false =>
      cases hp : cls.isWagtailPage with
      | true =>
        simp [_register_model, hns, hf, hp, _add_page, inBucketsCount, inExpectedBucket,
          classifiedKind, dictInsert, dget, h2, h3, h4, h5]
      | false =>
        cases hst : cls.isBaseSetting with
        | true =>
          simp [_register_model, hns, hf, hp, hst, _add_setting, inBucketsCount,
            inExpectedBucket, classifiedKind, dictInsert, dget, h1, h2, h4, h5]
        | false =>
          simp [_register_model, hns, hf, hp, hst, _add_django_model, inBucketsCount,
            inExpectedBucket, classifiedKind, dictInsert, dget, h1, h2, h3, h4]

theorem C2_amended_bucket_placement_witness :
    inBucketsCount ((_register_model [] aboutCls false "home" "\x7bapp\x7d" "" emptyRegistry).2)
        aboutCls (nodeNameOf "\x7bapp\x7d" "home" aboutCls)
      = (if false = false ∧ aboutCls.isAbstractForm = true then 2 else 1) ∧
    inExpectedBucket ((_register_model [] aboutCls false "home" "\x7bapp\x7d" "" emptyRegistry).2)
        aboutCls (nodeNameOf "\x7bapp\x7d" "home" aboutCls) (classifiedKind false aboutCls) = true :=
  C2_amended_bucket_placement [] aboutCls false "home" "\x7bapp\x7d" "" emptyRegistry
    (by simp) (by decide)

theorem register_skip (s : List ModelClass) (c : ModelClass) (b : Bool)
    (app pfxTemplate urlPfx : String) (r : Registry) (h : c ∈ s) :
    _register_model s c b app pfxTemplate urlPfx r = (s, r) := by
  simp [_register_model, h]

theorem self_mem_register (s : List ModelClass) (c : ModelClass) (b : Bool)
    (app pfxTemplate urlPfx : String) (r : Registry) :
    c ∈ (_register_model s c b app pfxTemplate urlPfx r).1 := by
  by_cases h : c ∈ s <;> simp [_register_model, h]

theorem mem_register (s : List ModelClass) (d c : ModelClass) (b : Bool)
    (app pfxTemplate urlPfx : String) (r : Registry) (h : d ∈ s) :
    d ∈ (_register_model s c b app pfxTemplate urlPfx r).1 := by
  by_cases hc : c ∈ s <;> simp [_register_model, hc, h]

theorem registerLoop_append (app pfxTemplate urlPfx : String) (sn : List ModelClass)
    (l1 l2 : List ModelClass) (st : List ModelClass × Registry) :
    registerLoop app pfxTemplate urlPfx sn (l1 ++ l2) st
      = registerLoop app pfxTemplate urlPfx sn l2 (registerLoop app pfxTemplate urlPfx sn l1 st) := by
  induction l1 generalizing st with
  | nil => rfl
  | cons c tl ih => simp [registerLoop, ih]

theorem registerLoop_mem (app pfxTemplate urlPfx : String) (sn : List ModelClass)
    (l : List ModelClass) (st : List ModelClass × Registry) (c : ModelClass) (h : c ∈ st.1) :
    c ∈ (registerLoop app pfxTemplate urlPfx sn l st).1 := by
  induction l generalizing st with
  | nil => exact h
  | cons d tl ih =>
    exact ih _ (mem_register st.1 c d (decide (d ∈ sn)) app pfxTemplate urlPfx st.2 h)

theorem registerLoop_skip (app pfxTemplate urlPfx : String) (sn : List ModelClass)
    (l : List ModelClass) (st : List ModelClass × Registry) (c : ModelClass) (h : c ∈ st.1) :
    registerLoop app pfxTemplate urlPfx sn (c :: l) st
      = registerLoop app pfxTemplate urlPfx sn l st := by
  have hs := register_skip st.1 c (decide (c ∈ sn)) app pfxTemplate urlPfx st.2 h
  simp [registerLoop, hs]

theorem registerLoop_skip_mid (app pfxTemplate urlPfx : String) (sn : List ModelClass)
    (l2 l3 : List ModelClass) (c : ModelClass) (st : List ModelClass × Registry)
    (h : c ∈ st.1) :
    registerLoop app pfxTemplate urlPfx sn (l2 ++ c :: l3) st
      = registerLoop app pfxTemplate urlPfx sn (l2 ++ l3) st := by
  rw [registerLoop_append, registerLoop_append,
    registerLoop_skip app pfxTemplate urlPfx sn l3 _ c
      (registerLoop_mem app pfxTemplate urlPfx sn l2 st c h)]

theorem registerLoop_dup_collapse (app pfxTemplate urlPfx : String) (sn : List ModelClass)
    (l1 l2 l3 : List ModelClass) (c : ModelClass) (st : List ModelClass × Registry) :
    registerLoop app pfxTemplate urlPfx sn (l1 ++ c :: (l2 ++ c :: l3)) st
      = registerLoop app pfxTemplate urlPfx sn (l1 ++ c :: (l2 ++ l3)) st := by
  rw [registerLoop_append, registerLoop_append]
  generalize registerLoop app pfxTemplate urlPfx sn l1 st = st1
  simp only [registerLoop]
  exact registerLoop_skip_mid app pfxTemplate urlPfx sn l2 l3 c _
    (self_mem_register st1.1 c (decide (c ∈ sn)) app pfxTemplate urlPfx st1.2)

/-- C8: within one add_app run the seen-guard makes a repeated occurrence of
a class a no-op: a duplicate occurrence in the content-source model list can
be dropped without changing the resulting registry, and likewise a model
occurrence of a class already covered by the snippet list. -/
theorem C8_seen_guard_dedupe (app pfxTemplate urlPfx : String) (sn : List ModelClass)
    (m1 m2 m3 : List (Option ModelClass)) (c : ModelClass) (r : Registry) :
    add_app app pfxTemplate urlPfx sn (m1 ++ some c :: (m2 ++ some c :: m3)) r
      = add_app app pfxTemplate urlPfx sn (m1 ++ some c :: (m2 ++ m3)) r ∧
    (c ∈ sn →
      add_app app pfxTemplate urlPfx sn (m1 ++ some c :: m2) r
        = add_app app pfxTemplate urlPfx sn (m1 ++ m2) r) := by
  have hto : ∀ (ms : List (Option ModelClass)),
      ((sn.map some) ++ ms).filterMap id = sn ++ ms.filterMap id := by
    intro ms
    simp [List.filterMap_append]
  constructor
  · unfold add_app
    rw [hto, hto]
    simp only [List.filterMap_append, List.filterMap_cons, id_eq]
    rw [show sn ++ (List.filterMap id m1 ++ c :: (List.filterMap id m2 ++ c :: List.filterMap id m3))
        = (sn ++ List.filterMap id m1) ++ c :: (List.filterMap id m2 ++ c :: List.filterMap id m3) by
      simp [List.append_assoc]]
    rw [show sn ++ (List.filterMap id m1 ++ c :: (List.filterMap id m2 ++ List.filterMap id m3))
        = (sn ++ List.filterMap id m1) ++ c :: (List.filterMap id m2 ++ List.filterMap id m3) by
      simp [List.append_assoc]]
    rw [registerLoop_dup_collapse]
  · intro hmem
    obtain ⟨s1, s2, rfl⟩ := List.append_of_mem hmem
    unfold add_app
    rw [hto, hto]
    simp only [List.filterMap_append, List.filterMap_cons, id_eq]
    rw [show (s1 ++ c :: s2) ++ (List.filterMap id m1 ++ c :: List.filterMap id m2)
        = s1 ++ c :: ((s2 ++ List.filterMap id m1) ++ c :: List.filterMap id m2) by
      simp [List.append_assoc]]
    rw [show (s1 ++ c :: s2) ++ (List.filterMap id m1 ++ List.filterMap id m2)
        = s1 ++ c :: ((s2 ++ List.filterMap id m1) ++ List.filterMap id m2) by
      simp [List.append_assoc]]
    rw [registerLoop_dup_collapse]

theorem C8_seen_guard_dedupe_witness :
    add_app "home" "\x7bapp\x7d" "" [contactFormCls] ([] ++ some contactFormCls :: []) emptyRegistry
      = add_app "home" "\x7bapp\x7d" "" [contactFormCls] ([] ++ []) emptyRegistry :=
  (C8_seen_guard_dedupe "home" "\x7bapp\x7d" "" [contactFormCls] [] [] []
    contactFormCls emptyRegistry).2 (by decide)

end WagtailGraphQL
